import Mathlib

/-!
# Verification of the twitch_exporter collector subsystem

A shallow embedding, in Lean, of the metric-collection logic of the
`twitch_exporter` repository:

* `twitch_exporter.go` — the monolithic `Exporter.Collect` scrape, the
  `GameIdCache` and the rate-limit back-off;
* `collector/channel_chat_messages_total.go` — the `MessageCounter` fed by
  asynchronous EventSub deliveries and drained per scrape;
* `collector/channel_uptime.go` — the first-push / last-scrape uptime
  collector;
* `collector/channel_chatters_total.go` — the chatters collector;
* the clips collector and `twitch.GetUserByUsername` (cursor pagination and
  the 24h user cache).

Go values are modelled as plain Lean data: machine integers as `Int`/`Nat`
(no overflow is reachable in the modelled code paths), time instants as
integer unix seconds, `error` results as `Option`/`Except`, and remote
responses as explicit environment structures passed to the embedded
functions.  A Go runtime panic (nil dereference, out-of-range index) is
modelled by the `Outcome.crash` constructor.
-/

namespace TwitchExporter

/-- A Prometheus metric sample: fully-qualified descriptor name, label
values in declaration order, and the numeric value (all values emitted by
the modelled code are integral, so `Int` is exact). -/
structure Sample where
  desc : String
  labels : List String
  value : Int
deriving DecidableEq, Repr

/-- Error values returned by a collector's `Update`.  `noData` models the
sentinel `ErrNoData` declared in the collector registry; `remote msg`
models any other non-nil Go `error` (transport failure or an
`errors.New` built from a remote error message). -/
inductive CollErr where
  | noData
  | remote (msg : String)
deriving DecidableEq, Repr

/-- Result of running an embedded Go function that may panic.
`crash` models a Go runtime panic; `unspec` marks an execution that asked
the response environment for a response it does not specify (never reached
by the theorems below, whose environments are total for the executed
calls). -/
inductive Outcome (α : Type) where
  | ok (a : α)
  | crash (msg : String)
  | unspec
deriving DecidableEq, Repr

/-- A helix API response carrying a payload of type `α`.
`err` is the transport-level error (`nil` ⇔ `none`); `statusCode` and
`errorMessage` are the remote-reported status and error text. -/
structure HelixResp (α : Type) where
  err : Option String
  statusCode : Int
  errorMessage : String
  data : α
deriving DecidableEq, Repr

/-! ## GameIdCache (`twitch_exporter.go` lines 48–100)

The Go cache is a `map[string]GameIdCacheItem`; it is modelled as an
association list keyed by the game id (the claims below depend only on
membership and per-key contents, never on iteration order).  Time is in
integer unix seconds; `time.Since(v.Stored).Minutes() >= 5` is exactly
`now - stored ≥ 300` seconds. -/

/-- `GameIdCacheItem`: insertion instant plus the cached id and name. -/
structure GameIdCacheItem where
  stored : Int
  id : String
  name : String
deriving DecidableEq, Repr

/-- `GameIdCache`: map from game id to cache item. -/
abbrev GameIdCache := List (String × GameIdCacheItem)

/-- Go map indexing `g[id]` (as an `Option`). -/
def GameIdCache.find : GameIdCache → String → Option GameIdCacheItem
  | [], _ => none
  | (k, it) :: rest, id => if k = id then some it else GameIdCache.find rest id

/-- `GameIdCache.Has`: `_, ok := g[id]`.  Note: no age check. -/
def GameIdCache.has (g : GameIdCache) (id : String) : Bool :=
  (g.find id).isSome

/-- `GameIdCache.GetName`: `nil` when absent, otherwise the stored name.
Note: no age check — staleness is invisible to reads. -/
def GameIdCache.getName (g : GameIdCache) (id : String) : Option String :=
  if g.has id = false then none
  else (g.find id).map (fun it => it.name)

/-- `GameIdCache.prune`: delete every item cached ≥ 5 minutes before
`now` (`time.Since(v.Stored).Minutes() >= float64(5)`). -/
def GameIdCache.prune (g : GameIdCache) (now : Int) : GameIdCache :=
  g.filter (fun kv => decide (now - kv.2.stored < 300))

/-- `GameIdCache.Add`: no-op when the id is already present (however
stale); otherwise insert the item stamped `now`, then prune. -/
def GameIdCache.add (g : GameIdCache) (now : Int) (id name : String) : GameIdCache :=
  if g.has id then g
  else GameIdCache.prune ((id, ⟨now, id, name⟩) :: g) now

/-! ## Rate-limit governor (`twitch_exporter.go` lines 366–380) -/

/-- Go's `time.Sleep` on a duration of `d` seconds: a negative or zero
duration returns immediately, so the realised wait is `max d 0`. -/
def sleepSeconds (d : Int) : Int := max d 0

/-- The back-off performed after each top-games streams call: when the
reported remaining budget is at or below 3, sleep until the reported
reset unix timestamp (`secsToWait := reset - time.Now().Unix()`);
otherwise do not block.  Returns the seconds slept. -/
def rateLimitWait (remaining reset now : Int) : Int :=
  if remaining ≤ 3 then sleepSeconds (reset - now) else 0

/-! ## String-keyed counters

Both the subscription tier counters inside `Exporter.Collect` and the
chat `MessageCounter` are Go `map[string]int` values used as counters.
They are modelled as association lists; a Go map read of a missing key
yields the zero value. -/

/-- A `map[string]int` counter. -/
abbrev Counter := List (String × Nat)

/-- Go map read with zero default: `m[k]` for a `map[string]int`. -/
def Counter.get : Counter → String → Nat
  | [], _ => 0
  | (k, v) :: rest, key => if k = key then v else Counter.get rest key

/-- Go map assignment `m[k] = v` (overwrites the key's entry or appends
a fresh one). -/
def Counter.set : Counter → String → Nat → Counter
  | [], key, v => [(key, v)]
  | (k, v') :: rest, key, v =>
    if k = key then (key, v) :: rest else (k, v') :: Counter.set rest key v

/-! ## `Exporter.Collect` (`twitch_exporter.go` lines 204–382)

The scrape is embedded as a pure function from a response environment
(one field per helix endpoint the scrape may call) and the current
`GameIdCache` to the ordered list of samples written to the output
channel.  Early `return` statements are modelled by stopping the
accumulation; samples already written stay written.  The unguarded
`gamesResp.Data.Games[0]` index is modelled by `Outcome.crash` on an
empty list.  The rate-limit back-off inside the top-games loop
(`rateLimitWait` above) only delays execution and changes no sample, so
`collect` does not re-model it.  Go map iteration order is unspecified;
the model fixes first-encounter order for the subscription tier
counters, which no claim depends on. -/

/-- A helix stream entry (the fields `Exporter.Collect` reads). -/
structure Stream where
  userName : String
  gameID : String
  gameName : String
  viewerCount : Int
deriving DecidableEq, Repr

/-- A helix user entry (the fields `Exporter.Collect` reads). -/
structure User where
  id : String
  login : String
  displayName : String
  viewCount : Int
deriving DecidableEq, Repr

/-- A helix subscription entry. -/
structure Subscription where
  tier : String
  isGift : Bool
deriving DecidableEq, Repr

/-- A helix game entry. -/
structure Game where
  id : String
  name : String
deriving DecidableEq, Repr

/-- The responses the remote API would give to each call `Collect` can
issue during one scrape (keyed by the argument the code passes). -/
structure CollectEnv where
  /-- `GetStreams` over the configured channel logins. -/
  streamsResp : HelixResp (List Stream)
  /-- `GetGames` for one game id. -/
  gamesResp : String → HelixResp (List Game)
  /-- `GetUsers` over the configured channel logins. -/
  usersResp : HelixResp (List User)
  /-- `GetChannelFollows` per broadcaster id; payload is `Data.Total`. -/
  followsResp : String → HelixResp Int
  /-- `GetSubscriptions` per broadcaster id. -/
  subsResp : String → HelixResp (List Subscription)
  /-- `GetTopGames`. -/
  topGamesResp : HelixResp (List Game)
  /-- `GetStreams` per top-game id. -/
  topStreamsResp : String → HelixResp (List Stream)

/-- Game-name resolution for one stream (`Collect` lines 221–241): try
the cache; on miss call `GetGames`, where a transport error is only
logged (name stays empty) and otherwise `Games[0].Name` is read without
a bounds check and cached. -/
def resolveGameName (cache : GameIdCache) (gamesResp : HelixResp (List Game))
    (now : Int) (gameID : String) : Outcome (String × GameIdCache) :=
  let gameName := if cache.has gameID then (cache.getName gameID).getD "" else ""
  if gameName = "" then
    match gamesResp.err with
    | some _ => .ok ("", cache)
    | none =>
      match gamesResp.data with
      | [] => .crash "index out of range [0] with length 0"
      | g :: _ => .ok (g.name, cache.add now gameID g.name)
  else .ok (gameName, cache)

/-- The live-streams loop (`Collect` lines 220–252): per stream, resolve
the game name, record the channel as live and emit `channel_up 1` and
`channel_viewers_total`. -/
def collectStreamsLoop (env : CollectEnv) (now : Int) :
    List Stream → GameIdCache → List String → List Sample →
    Outcome (List Sample × GameIdCache × List String)
  | [], cache, live, acc => .ok (acc, cache, live)
  | s :: rest, cache, live, acc =>
    match resolveGameName cache (env.gamesResp s.gameID) now s.gameID with
    | .crash m => .crash m
    | .unspec => .unspec
    | .ok (gameName, cache') =>
      collectStreamsLoop env now rest cache' (live ++ [s.userName])
        (acc ++ [⟨"twitch_channel_up", [s.userName, gameName], 1⟩,
                 ⟨"twitch_channel_viewers_total", [s.userName, gameName], s.viewerCount⟩])

/-- Tally subscriptions by tier (`Collect` lines 305–319), returning
`(subCounter, giftedSubCounter)`. -/
def countSubs (subs : List Subscription) : Counter × Counter :=
  subs.foldl
    (fun acc s =>
      if s.isGift then (acc.1, Counter.set acc.2 s.tier (Counter.get acc.2 s.tier + 1))
      else (Counter.set acc.1 s.tier (Counter.get acc.1 s.tier + 1), acc.2))
    ([], [])

/-- The users loop (`Collect` lines 266–332).  A transport error on the
follows or subscriptions call is an early `return` from `Collect`
(second component `true`); a non-2xx status on either call is only
logged and the loop keeps emitting from the response payload. -/
def collectUsersLoop (env : CollectEnv) :
    List User → List String → List Sample → List Sample × Bool
  | [], _, acc => (acc, false)
  | u :: rest, live, acc =>
    let fresp := env.followsResp u.id
    if fresp.err.isSome then (acc, true)
    else
      let acc := if u.displayName ∈ live then acc
        else acc ++ [⟨"twitch_channel_up", [u.displayName, ""], 0⟩]
      let acc := acc ++ [⟨"twitch_channel_followers_total", [u.displayName], fresp.data⟩,
                         ⟨"twitch_channel_views_total", [u.displayName], u.viewCount⟩]
      let sresp := env.subsResp u.id
      if sresp.err.isSome then (acc, true)
      else
        let counters := countSubs sresp.data
        let acc := acc
          ++ counters.2.map (fun kv =>
               ⟨"twitch_channel_subscribers_total", [u.displayName, kv.1, "true"], Int.ofNat kv.2⟩)
          ++ counters.1.map (fun kv =>
               ⟨"twitch_channel_subscribers_total", [u.displayName, kv.1, "false"], Int.ofNat kv.2⟩)
        collectUsersLoop env rest live acc

/-- The top-games loop (`Collect` lines 344–381): cache each game, fetch
its live streams (a transport error is an early `return`; the status
code is not checked here) and emit a viewers sample per stream. -/
def collectTopGamesLoop (env : CollectEnv) (now : Int) :
    List Game → GameIdCache → List Sample → List Sample × GameIdCache
  | [], cache, acc => (acc, cache)
  | g :: rest, cache, acc =>
    let cache := cache.add now g.id g.name
    let resp := env.topStreamsResp g.id
    if resp.err.isSome then (acc, cache)
    else
      let acc := acc ++ resp.data.map (fun s =>
        ⟨"twitch_top_games_viewers_total", [s.userName, s.gameName], s.viewerCount⟩)
      collectTopGamesLoop env now rest cache acc

/-- `Exporter.Collect`: a transport error or non-2xx status on the
initial streams call returns before anything is emitted; a transport
error on the users call returns with the samples emitted so far; a
non-2xx users status is only logged (a warning) and the loop still runs
over the response payload; finally the top-games section runs. -/
def collect (env : CollectEnv) (cache : GameIdCache) (now : Int) :
    Outcome (List Sample × GameIdCache) :=
  match env.streamsResp.err with
  | some _ => .ok ([], cache)
  | none =>
    if env.streamsResp.statusCode ≠ 200 then .ok ([], cache)
    else
      match collectStreamsLoop env now env.streamsResp.data cache [] [] with
      | .crash m => .crash m
      | .unspec => .unspec
      | .ok (acc, cache, live) =>
        match env.usersResp.err with
        | some _ => .ok (acc, cache)
        | none =>
          let r := collectUsersLoop env env.usersResp.data live acc
          if r.2 then .ok (r.1, cache)
          else
            match env.topGamesResp.err with
            | some _ => .ok (r.1, cache)
            | none =>
              let t := collectTopGamesLoop env now env.topGamesResp.data cache r.1
              .ok (t.1, t.2)

/-! ## `MessageCounter` (`collector/channel_chat_messages_total.go`)

`chatMessages` is a package-global `map[string]int`.  `Add` and `Reset`
each hold `chatMessagesMutex` for their single map mutation, so each is
one atomic event.  `Update` however iterates the map **without** the
mutex: its per-key drain is the two separate atomic events «read the
count» (the unlocked `range` read) and «zero the count» (`Reset`, which
locks).  Interleavings of these events with concurrent `Add`s are
modelled as traces. -/

/-- One atomic event on the chat counter: an EventSub `Add`, the
unlocked read of a key's count inside `Update`'s `range`, or the locked
`Reset` of that key. -/
inductive ChatEv where
  | add (u : String)
  | drainRead (u : String)
  | drainReset (u : String)
deriving DecidableEq, Repr

/-- Shared state while a drain races with increments: the live counter
map and the per-key counts the drain has read so far (the values the
scrape emits). -/
structure ChatSt where
  counter : Counter
  drained : Counter
deriving DecidableEq, Repr

/-- Effect of one atomic event. -/
def chatStep (st : ChatSt) : ChatEv → ChatSt
  | .add u => { st with counter := Counter.set st.counter u (Counter.get st.counter u + 1) }
  | .drainRead u => { st with drained := Counter.set st.drained u (Counter.get st.counter u) }
  | .drainReset u => { st with counter := Counter.set st.counter u 0 }

/-- Run a trace of atomic events from the empty state. -/
def chatRun (evs : List ChatEv) : ChatSt :=
  evs.foldl chatStep ⟨[], []⟩

/-- A schedulable interleaving: two `Add("alice")` deliveries, the
second landing between `Update`'s unlocked read of the count and the
`Reset` of the key. -/
def c2Trace : List ChatEv :=
  [.add "alice", .drainRead "alice", .add "alice", .drainReset "alice"]

/-- Descriptor name of the chat messages metric. -/
def chatDesc : String := "twitch_channel_chat_messages_total"

/-- The body of `ChannelChatMessagesCollector.Update`'s loop, run
sequentially (no concurrent `Add`): for each entry of the counter, emit
its count and set the key to zero.  The `range` yields each key once
with the count it had when visited, and `Reset` zeroes the key without
deleting it. -/
def chatDrainLoop : List (String × Nat) → List Sample → Counter → List Sample × Counter
  | [], acc, m => (acc, m)
  | (u, cnt) :: rest, acc, m =>
    chatDrainLoop rest (acc ++ [⟨chatDesc, [u], Int.ofNat cnt⟩]) (Counter.set m u 0)

/-- `ChannelChatMessagesCollector.Update`: `ErrNoData` on an empty
channel list, otherwise drain the global counter, emitting one sample
per identity present in it. -/
def chatUpdate (names : List String) (m : Counter) :
    Option CollErr × List Sample × Counter :=
  if names.length = 0 then (some .noData, [], m)
  else
    let r := chatDrainLoop m [] m
    (none, r.1, r.2)

/-! ## `channelUpTimeCollector` (`collector/channel_uptime.go`)

`firstPush` is a `map[string]bool` used only for membership, modelled as
a list of user names; `lastScrape` is an instant.  `Update` checks only
the transport error of `GetStreams` (not the status code). -/

/-- A helix stream entry as the uptime collector reads it. -/
structure UStream where
  userName : String
  startedAt : Int
deriving DecidableEq, Repr

/-- The uptime collector's cross-scrape state: the `firstPush` key set
and `lastScrape`. -/
structure UptimeState where
  firstPush : List String
  lastScrape : Int
deriving DecidableEq, Repr

/-- Descriptor name of the uptime metric. -/
def uptimeDesc : String := "twitch_channel_uptime_total"

/-- The live-streams loop of the uptime `Update`: a channel not yet in
`firstPush` is added and emits `time.Since(s.StartedAt)`; a channel
already present emits `time.Since(lastScrape)`. -/
def uptimeLoop (now lastScrape : Int) :
    List UStream → List String → List Sample × List String
  | [], fp => ([], fp)
  | s :: rest, fp =>
    if s.userName ∈ fp then
      let r := uptimeLoop now lastScrape rest fp
      (⟨uptimeDesc, [s.userName], now - lastScrape⟩ :: r.1, r.2)
    else
      let r := uptimeLoop now lastScrape rest (fp ++ [s.userName])
      (⟨uptimeDesc, [s.userName], now - s.startedAt⟩ :: r.1, r.2)

/-- `channelUpTimeCollector.Update`: `ErrNoData` on an empty channel
list; a `GetStreams` transport error is returned (no status check);
otherwise run the loop and set `lastScrape := now`. -/
def uptimeUpdate (names : List String) (st : UptimeState) (now : Int)
    (resp : HelixResp (List UStream)) : Option CollErr × List Sample × UptimeState :=
  if names.length = 0 then (some .noData, [], st)
  else
    match resp.err with
    | some e => (some (.remote e), [], st)
    | none =>
      let r := uptimeLoop now st.lastScrape resp.data st.firstPush
      (none, r.1, ⟨r.2, now⟩)

/-! ## `channelChattersTotalCollector` (`collector/channel_chatters_total.go`) -/

/-- Responses for one chatters scrape: the constructor-time id map
(`channelIDmap`, a Go map defaulting to `""`) and the
`GetChannelChatChatters` response per broadcaster id (payload is
`Data.Total`). -/
structure ChattersEnv where
  channelNames : List String
  idMap : String → String
  chatters : String → HelixResp Nat

/-- The per-channel loop of the chatters `Update`: a transport error is
returned as-is; a non-2xx status returns
`errors.New(chattersResp.ErrorMessage)`; otherwise emit `Data.Total`. -/
def chattersLoop (env : ChattersEnv) : List String → List Sample → List Sample × Option CollErr
  | [], acc => (acc, none)
  | name :: rest, acc =>
    let resp := env.chatters (env.idMap name)
    match resp.err with
    | some e => (acc, some (.remote e))
    | none =>
      if resp.statusCode ≠ 200 then (acc, some (.remote resp.errorMessage))
      else chattersLoop env rest
        (acc ++ [⟨"twitch_channel_chatters_total", [name], Int.ofNat resp.data⟩])

/-- `channelChattersTotalCollector.Update`. -/
def chattersUpdate (env : ChattersEnv) : List Sample × Option CollErr :=
  if env.channelNames.length = 0 then ([], some .noData)
  else chattersLoop env env.channelNames []

/-! ## `twitch.GetUserByUsername` and the clips collector
(`twitch/…​.go` and `collector/channel_clips_total.go`, provided as
`src/unnamed/part_001`) -/

/-- The environment of one `GetUserByUsername` call: the outcome of
`cache.DefaultCache.Get` (its error, whether that error `errors.Is`
`store.NotFound`, and — when `len(data) > 0` — the user the cached bytes
unmarshal to) and the `GetUsers` response used on a cache miss. -/
structure UserEnv where
  cacheGetErr : Option String
  cacheGetErrNotFound : Bool
  cacheData : Option User
  usersResp : HelixResp (List User)

/-- `twitch.GetUserByUsername`: a cache error other than not-found is
returned; cached bytes are returned directly; otherwise the API is
called — transport errors and non-2xx statuses become errors joining the
remote text; an empty user list returns `(nil, nil)`, deliberately not
cached; otherwise the first user is cached (a cache write failure is
only logged) and returned. -/
def getUserByUsername (env : UserEnv) : Except String (Option User) :=
  if env.cacheGetErr.isSome ∧ env.cacheGetErrNotFound = false then
    .error "could not retrieve user by username from cache"
  else if env.cacheData.isSome then .ok env.cacheData
  else
    match env.usersResp.err with
    | some e => .error ("failed to collect users stats from Twitch helix API: " ++ e)
    | none =>
      if env.usersResp.statusCode ≠ 200 then
        .error ("failed to get user by id from Twitch helix API: " ++ env.usersResp.errorMessage)
      else
        match env.usersResp.data with
        | [] => .ok none
        | u :: _ => .ok (some u)

/-- One `GetClips` page as the clips collector reads it: transport
error, status, remote error text, `len(Data.Clips)` and the pagination
cursor. -/
structure ClipPage where
  err : Option String
  statusCode : Int
  errorMessage : String
  clips : Nat
  cursor : String
deriving DecidableEq, Repr

/-- `channelClipsTotalCollector.getClipsCount`, with the successive
`GetClips` responses supplied as a list (one entry per call the
recursion issues; `none` marks a run that needed a response beyond those
supplied).  A transport error returns `(0, err)`; a **non-2xx status
also returns `(0, err)` — the source's `return 0, err` re-returns the
transport error, which is `nil` on this path**; otherwise the page size
is accumulated and a non-empty cursor recurses. -/
def getClipsCount : List ClipPage → Nat → Option (Nat × Option String)
  | [], _ => none
  | p :: rest, count =>
    if p.err.isSome then some (0, p.err)
    else if p.statusCode ≠ 200 then some (0, p.err)
    else
      let count := count + p.clips
      if p.cursor ≠ "" then getClipsCount rest count
      else some (count, none)

/-- The environment of one clips scrape: the configured channel names,
per-channel user-lookup environment, and per-broadcaster-id `GetClips`
page sequence. -/
structure ClipsEnv where
  channelNames : List String
  userEnv : String → UserEnv
  pages : String → List ClipPage

/-- The per-channel loop of the clips `Update`: a user-lookup error is
logged and the channel skipped (`continue`); a `nil, nil` user is then
dereferenced by `user.ID` — a runtime panic; a clips-count error is
logged and the channel skipped; otherwise a sample is emitted under the
user's display name. -/
def clipsLoop (env : ClipsEnv) : List String → List Sample → Outcome (List Sample)
  | [], acc => .ok acc
  | chn :: rest, acc =>
    match getUserByUsername (env.userEnv chn) with
    | .error _ => clipsLoop env rest acc
    | .ok none => .crash "invalid memory address or nil pointer dereference"
    | .ok (some u) =>
      match getClipsCount (env.pages u.id) 0 with
      | none => .unspec
      | some (_, some _) => clipsLoop env rest acc
      | some (cnt, none) =>
        clipsLoop env rest
          (acc ++ [⟨"twitch_channel_clips_total", [u.displayName], Int.ofNat cnt⟩])

/-- `channelClipsTotalCollector.Update`: `ErrNoData` on an empty channel
list, then the per-channel loop.  (The stray debug `GetUsers` call at
the top of the source only logs and is not modelled.) -/
def clipsUpdate (env : ClipsEnv) : Outcome (Option CollErr × List Sample) :=
  if env.channelNames.length = 0 then .ok (some .noData, [])
  else
    match clipsLoop env env.channelNames [] with
    | .ok samps => .ok (none, samps)
    | .crash m => .crash m
    | .unspec => .unspec

/-! ## Concrete environments used by the theorems -/

/-- A scrape environment whose initial streams call fails with HTTP 500
while every other endpoint would answer successfully (one resolvable
user with 7 followers). -/
def c1EnvBad : CollectEnv where
  streamsResp := ⟨none, 500, "Internal Server Error", []⟩
  gamesResp := fun _ => ⟨none, 200, "", []⟩
  usersResp := ⟨none, 200, "", [⟨"1", "ab", "Ab", 3⟩]⟩
  followsResp := fun _ => ⟨none, 200, "", 7⟩
  subsResp := fun _ => ⟨none, 200, "", []⟩
  topGamesResp := ⟨none, 200, "", []⟩
  topStreamsResp := fun _ => ⟨none, 200, "", []⟩

/-- The same environment with the streams call succeeding (no live
streams). -/
def c1EnvGood : CollectEnv := { c1EnvBad with streamsResp := ⟨none, 200, "", []⟩ }

/-- A `GetClips` response with no transport error but HTTP 404. -/
def clipsPage404 : ClipPage := ⟨none, 404, "Not Found", 0, ""⟩

/-- A chatters scrape whose `GetChannelChatChatters` call answers
HTTP 404 with no transport error. -/
def chatters404Env : ChattersEnv :=
  ⟨["somechannel"], fun _ => "123", fun _ => ⟨none, 404, "Not Found", 0⟩⟩

/-- The three-page clips cursor chain of sizes 100, 100, 37. -/
def c5Pages : List ClipPage :=
  [⟨none, 200, "", 100, "cursor1"⟩, ⟨none, 200, "", 100, "cursor2"⟩,
   ⟨none, 200, "", 37, ""⟩]

/-- A user lookup hitting a cache miss and then a 200 response whose
user list is empty (an unresolvable login). -/
def ghostUserEnv : UserEnv where
  cacheGetErr := some "value not found in store"
  cacheGetErrNotFound := true
  cacheData := none
  usersResp := ⟨none, 200, "", []⟩

/-- A clips scrape over one channel whose login is unresolvable. -/
def c10Env : ClipsEnv := ⟨["ghostchannel"], fun _ => ghostUserEnv, fun _ => []⟩

/-- Streams response: `somechan` live since instant 400. -/
def c8Resp1 : HelixResp (List UStream) := ⟨none, 200, "", [⟨"somechan", 400⟩]⟩

/-- Streams response: nobody live. -/
def c8RespOffline : HelixResp (List UStream) := ⟨none, 200, "", []⟩

/-- Streams response: `somechan` live again since instant 1200. -/
def c8Resp3 : HelixResp (List UStream) := ⟨none, 200, "", [⟨"somechan", 1200⟩]⟩

/-! ## Claim theorems -/

/-- C1 (counterexample): a streams-lookup failure in `Exporter.Collect`
does blacken the whole snapshot.  In `c1EnvBad` the streams call
answers HTTP 500 and `Collect` emits nothing at all — in particular no
followers sample — although the identical environment with a healthy
streams call (`c1EnvGood`) emits the `channel_up 0`, followers and
views samples for the configured user. -/
theorem collect_streams_failure_blackens :
    collect c1EnvBad [] 0 = .ok ([], []) ∧
    collect c1EnvGood [] 0 = .ok
      ([⟨"twitch_channel_up", ["Ab", ""], 0⟩,
        ⟨"twitch_channel_followers_total", ["Ab"], 7⟩,
        ⟨"twitch_channel_views_total", ["Ab"], 3⟩], []) :=
  ⟨rfl, rfl⟩

/-- C1 (amended): if the initial streams lookup of `Exporter.Collect`
fails — a transport error or a non-2xx status — the entire scrape is
aborted before anything is emitted: no followers, views, subscribers or
top-games samples appear and the game cache is untouched. -/
theorem collect_streams_failure_aborts (env : CollectEnv) (cache : GameIdCache) (now : Int)
    (h : env.streamsResp.err.isSome = true ∨ env.streamsResp.statusCode ≠ 200) :
    collect env cache now = .ok ([], cache) := by
  unfold collect
  split
  next e heq => rfl
  next heq =>
    rcases h with h | h
    · rw [heq] at h
      simp at h
    · rw [if_pos h]

/-- Witness for `collect_streams_failure_aborts` at `c1EnvBad`. -/
theorem collect_streams_failure_aborts_witness :
    collect c1EnvBad [] 0 = .ok ([], []) :=
  collect_streams_failure_aborts c1EnvBad [] 0 (Or.inr (by decide))

/-- C2: the drain performed by `ChannelChatMessagesCollector.Update` is
not indivisible.  In the schedulable interleaving `c2Trace` two
`Increment("alice")` deliveries race with one drain; the drain reads the
count (1) without the mutex, the second increment lands, and `Reset`
zeroes it: drained (1) + visible-after-drain (0) = 1 ≠ 2 = N.  The
increment between read and reset is lost. -/
theorem chat_drain_loses_concurrent_increment :
    c2Trace.countP (fun e => decide (e = ChatEv.add "alice")) = 2 ∧
    Counter.get (chatRun c2Trace).drained "alice" = 1 ∧
    Counter.get (chatRun c2Trace).counter "alice" = 0 ∧
    Counter.get (chatRun c2Trace).drained "alice" +
      Counter.get (chatRun c2Trace).counter "alice" ≠ 2 := by
  refine ⟨by decide, by decide, by decide, by decide⟩

/-- C3: the rate-limit governor blocks exactly when the remaining budget
is at or below 3, for `max (reset − now) 0` seconds (Go's `time.Sleep`
returns immediately on a negative duration); with remaining budget 2 and
a reset 5 seconds ahead it waits 5 seconds, and with remaining budget 10
it does not block. -/
theorem rate_limit_wait_spec (remaining reset now : Int) :
    rateLimitWait remaining reset now =
      (if remaining ≤ 3 then max (reset - now) 0 else 0) ∧
    rateLimitWait 2 (now + 5) now = 5 ∧
    rateLimitWait 10 reset now = 0 := by
  refine ⟨rfl, ?_, by simp [rateLimitWait]⟩
  have h5 : now + 5 - now = (5 : Int) := by ring
  simp [rateLimitWait, sleepSeconds, h5]

/-- C4: a non-2xx `GetClips` response with no transport error makes
`getClipsCount` return `(0, nil)` — the source's `return 0, err`
re-returns the stale nil transport error instead of a non-nil error
carrying the remote text — whereas the chatters collector does return
`errors.New(resp.ErrorMessage)` on its non-2xx path. -/
theorem clips_non2xx_returns_nil_error :
    getClipsCount [clipsPage404] 0 = some (0, none) ∧
    chattersUpdate chatters404Env = ([], some (CollErr.remote "Not Found")) :=
  ⟨rfl, rfl⟩

/-- C7 (counterexample): the game-id cache does not enforce its TTL at
read time.  An entry stored at instant 0 is still reported by `Has` and
`GetName` regardless of the current time — the two lookups take no clock
at all — and it only disappears when a later `Add` of a different id
(here at instant 360, past the 300-second TTL) prunes it. -/
theorem gameIdCache_read_ignores_ttl :
    ((GameIdCache.add [] 0 "g1" "GameOne").has "g1" = true) ∧
    ((GameIdCache.add [] 0 "g1" "GameOne").getName "g1" = some "GameOne") ∧
    (((GameIdCache.add [] 0 "g1" "GameOne").add 360 "g2" "GameTwo").has "g1" = false) := by
  refine ⟨by decide, by decide, by decide⟩

/-- C7 (amended): TTL expiry of the game-id cache is enforced only by
insertion-triggered pruning: after an `Add` of a not-yet-cached id at
instant `now`, every surviving entry was stored less than 300 seconds
(5 minutes) before `now`; reads themselves never consult entry age. -/
theorem gameIdCache_add_prunes_expired (g : GameIdCache) (now : Int) (id name : String)
    (h : g.has id = false) :
    (GameIdCache.add g now id name).all
      (fun kv => decide (now - kv.2.stored < 300)) = true := by
  unfold GameIdCache.add
  rw [h]
  simp only [Bool.false_eq_true, if_false, GameIdCache.prune]
  rw [List.all_eq_true]
  intro kv hkv
  exact (List.mem_filter.mp hkv).2

/-- Witness for `gameIdCache_add_prunes_expired`: adding a fresh id at
instant 360 over a cache holding an entry stored at instant 0. -/
theorem gameIdCache_add_prunes_expired_witness :
    (GameIdCache.add [("old", ⟨0, "old", "OldGame"⟩)] 360 "new" "NewGame").all
      (fun kv => decide ((360 : Int) - kv.2.stored < 300)) = true :=
  gameIdCache_add_prunes_expired [("old", ⟨0, "old", "OldGame"⟩)] 360 "new" "NewGame" (by decide)

/-- C9: with an empty configured channel list, the uptime,
chat-messages and clips collectors' `Update` all return the `ErrNoData`
sentinel and emit zero samples (state untouched). -/
theorem empty_channels_return_no_data :
    (∀ (st : UptimeState) (now : Int) (resp : HelixResp (List UStream)),
      uptimeUpdate [] st now resp = (some CollErr.noData, [], st)) ∧
    (∀ m : Counter, chatUpdate [] m = (some CollErr.noData, [], m)) ∧
    (∀ (ue : String → UserEnv) (pg : String → List ClipPage),
      clipsUpdate ⟨[], ue, pg⟩ = .ok (some CollErr.noData, [])) :=
  ⟨fun _ _ _ => rfl, fun _ => rfl, fun _ _ => rfl⟩

/-- C10: when the remote user list comes back empty on a cache miss,
`GetUserByUsername` returns `(nil, nil)`; the clips collector's `Update`
then passes its `err != nil` guard and dereferences the nil user via
`user.ID` — a runtime panic, not a completed scrape. -/
theorem clips_update_nil_user_crashes :
    getUserByUsername ghostUserEnv = .ok none ∧
    clipsUpdate c10Env = .crash "invalid memory address or nil pointer dereference" :=
  ⟨rfl, rfl⟩

/-- Accumulator-generalised pagination lemma: over a well-formed cursor
chain (every page healthy, every page but the last carrying a non-empty
cursor, the last page's cursor empty), `getClipsCount` adds the sum of
the page sizes to its accumulator. -/
theorem getClipsCount_go (lastp : ClipPage) :
    ∀ (pages : List ClipPage) (c0 : Nat),
      (∀ p ∈ pages, p.err = none ∧ p.statusCode = 200) →
      (∀ p ∈ pages.dropLast, p.cursor ≠ "") →
      pages.getLast? = some lastp →
      lastp.cursor = "" →
      getClipsCount pages c0 = some (c0 + (pages.map (fun p => p.clips)).sum, none) := by
  intro pages
  induction pages with
  | nil =>
    intro c0 _ _ hl _
    simp at hl
  | cons p rest ih =>
    intro c0 hok hmid hlast hcur
    have hp := hok p (List.mem_cons_self p rest)
    match rest with
    | [] =>
      have hpl : p = lastp := by simpa using hlast
      have hpc : p.cursor = "" := hpl ▸ hcur
      simp [getClipsCount, hp.1, hp.2, hpc]
    | q :: rest' =>
      have hpc : p.cursor ≠ "" := hmid p (by simp [List.dropLast])
      have step : getClipsCount (p :: q :: rest') c0 =
          getClipsCount (q :: rest') (c0 + p.clips) := by
        simp [getClipsCount, hp.1, hp.2, hpc]
      rw [step,
        ih (c0 + p.clips) (fun r hr => hok r (List.mem_cons_of_mem p hr))
          (fun r hr => hmid r (by simp [List.dropLast]; exact Or.inr hr))
          (by simpa using hlast) hcur]
      simp [Nat.add_assoc]

/-- C5: over a well-formed finite cursor chain — each page healthy, each
page but the last chaining to the next with a non-empty cursor, the last
cursor empty — `getClipsCount` walks the chain to exhaustion and returns
the sum of all page sizes with a nil error. -/
theorem getClipsCount_paginates (pages : List ClipPage) (lastp : ClipPage)
    (hok : ∀ p ∈ pages, p.err = none ∧ p.statusCode = 200)
    (hmid : ∀ p ∈ pages.dropLast, p.cursor ≠ "")
    (hlast : pages.getLast? = some lastp)
    (hcur : lastp.cursor = "") :
    getClipsCount pages 0 = some ((pages.map (fun p => p.clips)).sum, none) := by
  simpa using getClipsCount_go lastp pages 0 hok hmid hlast hcur

/-- Witness for `getClipsCount_paginates` on the page chain of sizes
100, 100, 37: the returned count is 237. -/
theorem getClipsCount_paginates_witness :
    getClipsCount c5Pages 0 = some (237, none) :=
  getClipsCount_paginates c5Pages ⟨none, 200, "", 37, ""⟩
    (by decide) (by decide) (by decide) rfl

/-- Zeroing a key not bound in the prefix rewrites exactly its entry. -/
theorem Counter.set_append (pre : Counter) (u : String) (hu : u ∉ pre.map Prod.fst)
    (v0 v : Nat) (rest : Counter) :
    Counter.set (pre ++ (u, v0) :: rest) u v = pre ++ (u, v) :: rest := by
  induction pre with
  | nil => simp [Counter.set]
  | cons kv pre ih =>
    obtain ⟨k, w⟩ := kv
    have hk : ¬ k = u := by
      intro hEq
      exact hu (by simp [hEq])
    have hu' : u ∉ pre.map Prod.fst := fun hmem => hu (by simp [hmem])
    simp [Counter.set, hk, ih hu']

/-- The drain loop over a counter whose undrained suffix is `todo`
(with pairwise-distinct keys, none bound in the already-zeroed prefix)
appends one sample per entry and zeroes each visited key in place. -/
theorem chatDrainLoop_go :
    ∀ (todo : List (String × Nat)) (acc : List Sample) (pre : Counter),
      (todo.map Prod.fst).Nodup →
      (∀ k ∈ todo.map Prod.fst, k ∉ pre.map Prod.fst) →
      chatDrainLoop todo acc (pre ++ todo) =
        (acc ++ todo.map (fun kv => ⟨chatDesc, [kv.1], Int.ofNat kv.2⟩),
         pre ++ todo.map (fun kv => (kv.1, 0))) := by
  intro todo
  induction todo with
  | nil =>
    intro acc pre _ _
    simp [chatDrainLoop]
  | cons kv rest ih =>
    intro acc pre hnd hdisj
    obtain ⟨u, cnt⟩ := kv
    have hu : u ∉ pre.map Prod.fst := hdisj u (by simp)
    have hunr : u ∉ rest.map Prod.fst := (List.nodup_cons.mp (by simpa using hnd)).1
    have hndr : (rest.map Prod.fst).Nodup := (List.nodup_cons.mp (by simpa using hnd)).2
    have hstep : chatDrainLoop ((u, cnt) :: rest) acc (pre ++ (u, cnt) :: rest) =
        chatDrainLoop rest (acc ++ [⟨chatDesc, [u], Int.ofNat cnt⟩])
          (Counter.set (pre ++ (u, cnt) :: rest) u 0) := rfl
    rw [hstep, Counter.set_append pre u hu cnt 0 rest]
    have hsplit : pre ++ (u, 0) :: rest = ((pre ++ [(u, 0)]) ++ rest : Counter) := by simp
    have hdisj2 : ∀ k ∈ rest.map Prod.fst, k ∉ (pre ++ [(u, 0)]).map Prod.fst := by
      intro k hk
      have hkne : ¬ k = u := fun hEq => hunr (hEq ▸ hk)
      have hknp : k ∉ pre.map Prod.fst := hdisj k (by simp [hk])
      simp [hkne, hknp]
    have ihh := ih (acc ++ [⟨chatDesc, [u], Int.ofNat cnt⟩]) (pre ++ [(u, 0)]) hndr hdisj2
    rw [hsplit, ihh]
    simp

/-- C6 (counterexample): after one `Add("alice")` and one drain, a
second drain with no intervening `Increment` is not empty — `Reset`
zeroes counts but never deletes keys, so the quiesced counter still
holds the identity and the second drain emits a zero-valued sample for
it. -/
theorem chat_second_drain_not_empty :
    (chatUpdate ["somechannel"] ((chatUpdate ["somechannel"] [("alice", 1)]).2.2)).2.1 =
      [⟨chatDesc, ["alice"], 0⟩] ∧
    (chatUpdate ["somechannel"] ((chatUpdate ["somechannel"] [("alice", 1)]).2.2)).2.1 ≠ [] :=
  ⟨rfl, by decide⟩

/-- C6 (amended): a drain leaves every previously seen identity in the
counter bound to 0, so a second drain with no intervening `Increment`
emits exactly one zero-valued sample per such identity (and keeps the
all-zero counter), rather than emitting nothing. -/
theorem chat_second_drain_zero_samples (names : List String) (m : Counter)
    (hn : names ≠ []) (hnd : (m.map Prod.fst).Nodup) :
    chatUpdate names ((chatUpdate names m).2.2) =
      (none, m.map (fun kv => ⟨chatDesc, [kv.1], 0⟩), m.map (fun kv => (kv.1, 0))) := by
  have hlen : ¬ names.length = 0 := by simpa [List.length_eq_zero] using hn
  have h1 : chatDrainLoop m [] (([] : Counter) ++ m) =
      ([] ++ m.map (fun kv => ⟨chatDesc, [kv.1], Int.ofNat kv.2⟩),
       ([] : Counter) ++ m.map (fun kv => (kv.1, 0))) :=
    chatDrainLoop_go m [] [] hnd (by simp)
  simp only [List.nil_append] at h1
  have hm1 : (chatUpdate names m).2.2 = m.map (fun kv => (kv.1, 0)) := by
    simp [chatUpdate, hlen, h1]
  rw [hm1]
  have hnd1 : ((m.map (fun kv => (kv.1, 0))).map Prod.fst).Nodup := by
    simpa [List.map_map, Function.comp] using hnd
  have h2 : chatDrainLoop (m.map (fun kv => (kv.1, 0))) []
        (([] : Counter) ++ m.map (fun kv => (kv.1, 0))) =
      ([] ++ (m.map (fun kv => (kv.1, 0))).map
          (fun kv => ⟨chatDesc, [kv.1], Int.ofNat kv.2⟩),
       ([] : Counter) ++ (m.map (fun kv => (kv.1, 0))).map (fun kv => (kv.1, 0))) :=
    chatDrainLoop_go (m.map (fun kv => (kv.1, 0))) [] [] hnd1 (by simp)
  simp only [List.nil_append] at h2
  simp [chatUpdate, hlen, h2, List.map_map, Function.comp]

/-- Witness for `chat_second_drain_zero_samples`: one identity with one
drained message; the second drain emits the identity with value 0. -/
theorem chat_second_drain_zero_samples_witness :
    chatUpdate ["somechannel"] [("alice", 0)] =
      (none, [⟨chatDesc, ["alice"], 0⟩], [("alice", 0)]) :=
  chat_second_drain_zero_samples ["somechannel"] [("alice", 1)] (by decide) (by decide)

/-- Closed form of the uptime loop when the live user names are
pairwise distinct: each stream already in `firstPush` emits
`now − lastScrape`, each new stream emits `now − startedAt`, and the
new names are appended to `firstPush` (never removed). -/
theorem uptimeLoop_go (now lastScrape : Int) :
    ∀ (streams : List UStream) (fp : List String),
      (streams.map (fun s => s.userName)).Nodup →
      uptimeLoop now lastScrape streams fp =
        (streams.map (fun s =>
          ⟨uptimeDesc, [s.userName],
            if s.userName ∈ fp then now - lastScrape else now - s.startedAt⟩),
         fp ++ (streams.filter (fun s => decide (s.userName ∉ fp))).map
           (fun s => s.userName)) := by
  intro streams
  induction streams with
  | nil =>
    intro fp _
    simp [uptimeLoop]
  | cons s rest ih =>
    intro fp hnd
    have hsr : s.userName ∉ rest.map (fun t => t.userName) :=
      (List.nodup_cons.mp (by simpa using hnd)).1
    have hndr : (rest.map (fun t => t.userName)).Nodup :=
      (List.nodup_cons.mp (by simpa using hnd)).2
    by_cases hmem : s.userName ∈ fp
    · have hstep : uptimeLoop now lastScrape (s :: rest) fp =
          (⟨uptimeDesc, [s.userName], now - lastScrape⟩ ::
            (uptimeLoop now lastScrape rest fp).1,
           (uptimeLoop now lastScrape rest fp).2) := by
        simp [uptimeLoop, hmem]
      rw [hstep, ih fp hndr]
      simp [hmem]
    · have hstep : uptimeLoop now lastScrape (s :: rest) fp =
          (⟨uptimeDesc, [s.userName], now - s.startedAt⟩ ::
            (uptimeLoop now lastScrape rest (fp ++ [s.userName])).1,
           (uptimeLoop now lastScrape rest (fp ++ [s.userName])).2) := by
        simp [uptimeLoop, hmem]
      rw [hstep, ih (fp ++ [s.userName]) hndr]
      have hmap : rest.map (fun t =>
            (⟨uptimeDesc, [t.userName],
              if t.userName ∈ fp ++ [s.userName] then now - lastScrape
              else now - t.startedAt⟩ : Sample)) =
          rest.map (fun t =>
            ⟨uptimeDesc, [t.userName],
              if t.userName ∈ fp then now - lastScrape else now - t.startedAt⟩) := by
        refine List.map_congr_left ?_
        intro t ht
        have htne : ¬ t.userName = s.userName := fun hEq =>
          hsr (hEq ▸ List.mem_map_of_mem (fun r => r.userName) ht)
        simp [List.mem_append, htne]
      have hfil : rest.filter (fun t => decide (t.userName ∉ fp ++ [s.userName])) =
          rest.filter (fun t => decide (t.userName ∉ fp)) := by
        refine List.filter_congr ?_
        intro t ht
        have htne : ¬ t.userName = s.userName := fun hEq =>
          hsr (hEq ▸ List.mem_map_of_mem (fun r => r.userName) ht)
        simp [List.mem_append, htne]
      rw [hmap, hfil]
      simp [hmem]

/-- C8 (counterexample): the uptime collector's first-observation state
is not cleared when a channel stops being live.  `somechan` goes live
at 400 and is first observed at 1000 (emitting 600 = elapsed since it
went live); at 1100 it is offline, yet `firstPush` still contains it;
when it goes live again at 1200 and is scraped at 1300, the collector
emits 200 (elapsed since the previous scrape) instead of treating the
new go-live as a first observation (100 = elapsed since the new start). -/
theorem uptime_regained_live_not_first_observation :
    (uptimeUpdate ["somechan"] ⟨[], 1000⟩ 1000 c8Resp1).2.1 =
      [⟨uptimeDesc, ["somechan"], 600⟩] ∧
    (uptimeUpdate ["somechan"] ⟨[], 1000⟩ 1000 c8Resp1).2.2 = ⟨["somechan"], 1000⟩ ∧
    (uptimeUpdate ["somechan"] ⟨["somechan"], 1000⟩ 1100 c8RespOffline).2.2 =
      ⟨["somechan"], 1100⟩ ∧
    (uptimeUpdate ["somechan"] ⟨["somechan"], 1100⟩ 1300 c8Resp3).2.1 =
      [⟨uptimeDesc, ["somechan"], 200⟩] ∧
    (200 : Int) ≠ 1300 - 1200 :=
  ⟨rfl, rfl, rfl, rfl, by decide⟩

/-- C8 (amended): with a non-empty channel list, a healthy streams call
and distinct live user names, the uptime `Update` emits, per live
stream, the elapsed time since the stream went live when its channel is
not yet in `firstPush`, and the elapsed time since the previous scrape
when it is; new channels are appended to `firstPush` and nothing is ever
removed from it — going offline does not reset a channel's
first-observation state — and `lastScrape` becomes `now`. -/
theorem uptime_update_spec (names : List String) (st : UptimeState) (now : Int)
    (resp : HelixResp (List UStream)) (hn : names ≠ []) (he : resp.err = none)
    (hnd : (resp.data.map (fun s => s.userName)).Nodup) :
    uptimeUpdate names st now resp =
      (none,
       resp.data.map (fun s =>
         ⟨uptimeDesc, [s.userName],
           if s.userName ∈ st.firstPush then now - st.lastScrape
           else now - s.startedAt⟩),
       ⟨st.firstPush ++
          (resp.data.filter (fun s => decide (s.userName ∉ st.firstPush))).map
            (fun s => s.userName),
        now⟩) := by
  have hlen : ¬ names.length = 0 := by simpa [List.length_eq_zero] using hn
  simp [uptimeUpdate, hlen, he,
    uptimeLoop_go now st.lastScrape resp.data st.firstPush hnd]

/-- Witness for `uptime_update_spec`: `somechan` is already in
`firstPush` and live, so the scrape at 1300 emits 200 = elapsed since
the previous scrape at 1100. -/
theorem uptime_update_spec_witness :
    uptimeUpdate ["somechan"] ⟨["somechan"], 1100⟩ 1300 c8Resp3 =
      (none, [⟨uptimeDesc, ["somechan"], 200⟩], ⟨["somechan"], 1300⟩) := by
  have h := uptime_update_spec ["somechan"] ⟨["somechan"], 1100⟩ 1300 c8Resp3
    (by decide) rfl (by decide)
  simpa using h

end TwitchExporter
